/-
  Verification development for the authentication and authorization core of
  the GoAhead embedded web server (src/auth.c).

  The C code is shallowly embedded: C strings become `String` (a NULL pointer
  becomes `none` of `Option String`), the user/role hash tables become
  insertion-ordered association lists (the spec states role ability sets are
  iterated in insertion order), request-scoped mutation of the `Webs` request
  context becomes explicit state passing, and the process-wide globals
  (`secret`, `users`, `roles`, BIT_REALM, the wall clock and the Digest nonce
  counter) become explicit parameters.

  External collaborators that are out of scope per the spec (the MD5
  primitive, base64, the session store, the `sclone`/`stok`/`hextoi` runtime
  string utilities) are modelled; each such definition carries a doc comment
  saying exactly what is modelled and which properties of the real collaborator
  the model keeps.
-/
import Mathlib

namespace GoAheadAuth

/-! ## Runtime string utilities (external collaborators) -/

/-- Modelled from the spec: `sclone` is the runtime string duplicator, not
under `src/`.  It duplicates its argument and maps a NULL pointer to the empty
string.  The null-to-empty behaviour is forced by the spec's form-login flow
(§4.4: the authorization gate answers form routes with a 401 → login redirect
rather than admitting them, which requires `websSetRouteAuth`'s
`sclone(0)` in `route->authType = sclone(auth)` to produce a non-null,
empty string). -/
def sclone (s : Option String) : String := s.getD ""

/-- Embeds `smatch`/`scmp` (runtime.c): `scmp` returns 0 when both pointers are
equal (in particular both NULL), -1/1 when exactly one is NULL, and `strcmp`
otherwise.  `smatch(a, b)` is `scmp(a, b) == 0`. -/
def smatch : Option String → Option String → Bool
  | none, none => true
  | some x, some y => x == y
  | _, _ => false

/-- Modelled from the spec: `websMD5` (the MD5 primitive) is an out-of-scope
external collaborator.  It is modelled as an injective encoding whose output
never contains a colon — the two properties the core relies on (MD5 is a
deterministic digest whose 32-hex-character output cannot collide with the
colon-delimited nonce layout). -/
def md5Escape : List Char → List Char
  | [] => []
  | ':' :: rest => ';' :: 'c' :: md5Escape rest
  | ';' :: rest => ';' :: ';' :: md5Escape rest
  | c :: rest => c :: md5Escape rest

/-- Modelled from the spec: see `md5Escape`. -/
def websMD5 (s : String) : String := "H" ++ String.mk (md5Escape s.toList)

/-- Modelled from the spec: base64 encoding (crypt/runtime, not under `src/`).
Modelled as an injective tagging; the core only relies on
`decode (encode s) = s` and on decoding being able to fail. -/
def websEncode64 (s : String) : String := "b64" ++ s

/-- Modelled from the spec: base64 decoding, inverse of `websEncode64`;
`none` is a failed decode (C returns NULL). -/
def websDecode64 (s : String) : Option String :=
  match s.toList with
  | 'b' :: '6' :: '4' :: rest => some (String.mk rest)
  | _ => none

/-- Splits a character list at every character satisfying `p`, keeping empty
fields (helper for the `stok` model). -/
def splitBy (p : Char → Bool) : List Char → List (List Char)
  | [] => [[]]
  | c :: rest =>
    let r := splitBy p rest
    if p c then [] :: r
    else
      match r with
      | [] => [[c]]
      | f :: fs => (c :: f) :: fs

/-- Embeds a full `stok` tokenizing loop (runtime.c): like `strtok`, runs of
delimiters are skipped, so only the non-empty fields are produced, in order. -/
def stokAll (s : String) (delims : List Char) : List String :=
  ((splitBy (fun c => delims.contains c) s.toList).filter (fun f => f ≠ [])).map
    (fun f => String.mk f)

/-- Value of a hex digit, `none` for a non-hex character. -/
def hexDigitVal (c : Char) : Option Nat :=
  if '0' ≤ c ∧ c ≤ '9' then some (c.toNat - 48)
  else if 'a' ≤ c ∧ c ≤ 'f' then some (c.toNat - 87)
  else if 'A' ≤ c ∧ c ≤ 'F' then some (c.toNat - 55)
  else none

def hextoiCore : List Char → Nat → Nat
  | [], acc => acc
  | c :: rest, acc =>
    match hexDigitVal c with
    | some v => hextoiCore rest (acc * 16 + v)
    | none => acc

/-- Embeds `hextoi` (runtime.c, a `strtol(s, 0, 16)` wrapper): parses the
longest hex-digit prefix.  A NULL argument is modelled as 0, matching the
`when = 0` initialisation at its only call site (auth.c line 763); in C a NULL
here would be undefined behaviour, which can only make the code reject less
often than this model, so only-if theorems about acceptance are unaffected. -/
def hextoi : Option String → Nat
  | none => 0
  | some s => hextoiCore s.toList 0

/-- Hex rendering of a `%x` conversion: the value is truncated to 32 bits by
the varargs `unsigned int` read. -/
def toHex (n : Nat) : String := String.mk (Nat.toDigits 16 (n % 2 ^ 32))

/-! ## Data model: users, roles, tables -/

/-- Embeds `WebsUser` (goahead.h): `name`, `password`, `roles` strings and the
derived `abilities` hash (modelled as an insertion-ordered list of ability
strings). -/
structure WebsUser where
  name : String
  password : String
  roles : String
  abilities : List String
deriving DecidableEq

/-- Embeds `WebsRole` (goahead.h): a role owns its set of ability strings. -/
structure WebsRole where
  abilities : List String
deriving DecidableEq

/-- Embeds `hashLookup` on the insertion-ordered table model. -/
def hashLookup {α : Type} : List (String × α) → String → Option α
  | [], _ => none
  | (n, v) :: rest, key => if n = key then some v else hashLookup rest key

/-- Embeds `hashEnter(abilities, role, valueInteger(0), 0)` used as set
insertion: re-entering an existing key leaves the table unchanged. -/
def hashEnter (abilities : List String) (a : String) : List String :=
  if abilities.contains a then abilities else abilities ++ [a]

/-- Embeds `websLookupUser` (auth.c line 309). -/
def websLookupUser (users : List (String × WebsUser)) (username : String) :
    Option WebsUser :=
  hashLookup users username

/-- Largest ability-list length in the role table; only used as a bound in the
termination measure of `computeAbilities`. -/
def maxMembers : List (String × WebsRole) → Nat
  | [] => 0
  | p :: rest => max p.2.abilities.length (maxMembers rest)

theorem lookup_le_maxMembers (tab : List (String × WebsRole)) (r : String)
    (rp : WebsRole) (h : hashLookup tab r = some rp) :
    rp.abilities.length ≤ maxMembers tab := by
  induction tab with
  | nil => simp [hashLookup] at h
  | cons p rest ih =>
    simp only [hashLookup] at h
    by_cases hn : p.1 = r
    · simp only [hn, if_pos rfl] at h
      cases h
      simp [maxMembers]
    · simp only [if_neg hn] at h
      have := ih h
      simp only [maxMembers]
      omega

/-! ## Ability resolver (auth.c lines 321-371)

`computeAbilities` is embedded exactly as written, including the `++depth`
in the member loop (line 338): the loop variable `depth` is pre-incremented
before every recursive call and keeps its incremented value for the next
iteration, so the i-th member of a role's ability list is expanded at
`depth + i`, not `depth + 1`.  `computeAbilitiesList` is the member loop.
The second component of the result collects the `error(...)` log messages. -/

mutual

def computeAbilities (tab : List (String × WebsRole)) (abilities : List String)
    (role : String) (depth : Nat) : List String × List String :=
  if depth > 20 then
    (abilities, ["Recursive ability definition for " ++ role])
  else
    match h : hashLookup tab role with
    | some rp => computeAbilitiesList tab abilities rp.abilities depth
    | none => (hashEnter abilities role, [])
termination_by (maxMembers tab + 2) ^ (22 - depth)
decreasing_by
  have hlen := lookup_le_maxMembers tab role rp h
  have h22 : 22 - depth = (21 - depth) + 1 := by omega
  rw [h22, pow_succ]
  have hK : 0 < (maxMembers tab + 2) ^ (21 - depth) := pow_pos (by omega) _
  calc (rp.abilities.length + 1) * (maxMembers tab + 2) ^ (21 - depth)
      = (maxMembers tab + 2) ^ (21 - depth) * (rp.abilities.length + 1) :=
        Nat.mul_comm _ _
    _ < (maxMembers tab + 2) ^ (21 - depth) * (maxMembers tab + 2) :=
        mul_lt_mul_of_pos_left (by omega) hK

def computeAbilitiesList (tab : List (String × WebsRole))
    (abilities : List String) (members : List String) (depth : Nat) :
    List String × List String :=
  match members with
  | [] => (abilities, [])
  | m :: rest =>
    let r1 := computeAbilities tab abilities m (depth + 1)
    let r2 := computeAbilitiesList tab r1.1 rest (depth + 1)
    (r2.1, r1.2 ++ r2.2)
termination_by (members.length + 1) * (maxMembers tab + 2) ^ (21 - depth)
decreasing_by
  · simp only [List.length_cons]
    have he : 22 - (depth + 1) = 21 - depth := by omega
    rw [he]
    have hK : 0 < (maxMembers tab + 2) ^ (21 - depth) := pow_pos (by omega) _
    have h1 : (1 : Nat) < rest.length + 1 + 1 := by omega
    simpa using mul_lt_mul_of_pos_right h1 hK
  · simp only [List.length_cons]
    have hexp : 21 - (depth + 1) ≤ 21 - depth := by omega
    have hKe : (maxMembers tab + 2) ^ (21 - (depth + 1)) ≤
        (maxMembers tab + 2) ^ (21 - depth) :=
      Nat.pow_le_pow_right (by omega) hexp
    have hK : 0 < (maxMembers tab + 2) ^ (21 - depth) := pow_pos (by omega) _
    calc (rest.length + 1) * (maxMembers tab + 2) ^ (21 - (depth + 1))
        ≤ (rest.length + 1) * (maxMembers tab + 2) ^ (21 - depth) :=
          Nat.mul_le_mul (Nat.le_refl _) hKe
      _ < (rest.length + 1 + 1) * (maxMembers tab + 2) ^ (21 - depth) :=
          mul_lt_mul_of_pos_right (by omega) hK

end

/-- Embeds `computeUserAbilities` (auth.c line 347): rebuild `user->abilities`
from scratch, tokenizing `user->roles` on space, tab and comma, expanding each
token at depth 0.  Second component: collected error log. -/
def computeUserAbilities (tab : List (String × WebsRole)) (user : WebsUser) :
    WebsUser × List String :=
  let toks := stokAll user.roles [' ', '\t', ',']
  let r := toks.foldl
    (fun acc t =>
      let r := computeAbilities tab acc.1 t 0
      (r.1, acc.2 ++ r.2))
    ([], [])
  ({ user with abilities := r.1 }, r.2)

/-! ## Request context (struct Webs, goahead.h)

Only the authentication-relevant fields are carried.  `wp->route` is not a
field here: C function pointers stored on the route would make the structure
non-positive, so the route travels as a separate argument everywhere the C
dereferences `wp->route` (and `parseDigestDetails` receives the
`wp->route != 0` fact as `routePresent`). -/

structure Webs where
  username : Option String
  password : Option String
  encoded : Bool
  authType : Option String
  authDetails : Option String
  authResponse : Option String
  cookie : Option String
  nonce : Option String
  cnonce : Option String
  nc : Option String
  qop : Option String
  opq : Option String  -- the C field is named `opaque`, a Lean keyword
  realm : Option String
  digestUri : Option String
  digest : Option String
  user : Option WebsUser
  method : String
deriving DecidableEq

/-- A request context with every optional field NULL, as freshly parsed
requests have them. -/
def emptyWebs : Webs :=
  { username := none, password := none, encoded := false, authType := none
    authDetails := none, authResponse := none, cookie := none, nonce := none
    cnonce := none, nc := none, qop := none, opq := none, realm := none
    digestUri := none, digest := none, user := none, method := "GET" }

/-- Embeds the session binder state the core sees through
`websGetSession`/`websGetSessionVar`/`websSetSessionVar`: whether a session
exists for the request's cookie, and the value stored under
`WEBS_SESSION_USERNAME`. -/
structure SessionState where
  active : Bool
  username : Option String
deriving DecidableEq

/-- The two parse-auth function pointers `websSetRouteAuth` can install. -/
inductive ParseAuthFn
  | basic
  | digest
deriving DecidableEq

/-- The two ask-login function pointers `websSetRouteAuth` can install. -/
inductive AskLoginFn
  | basic
  | digest
deriving DecidableEq

/-- Embeds the route authentication binding (`WebsRoute` fields `authType`,
`parseAuth`, `askLogin`, `verify`).  `parseAuth`/`askLogin` are tags for the
only functions ever stored there (by `websSetRouteAuth`); `verify` is a real
function value because it is independently pluggable (built-in or PAM). -/
structure WebsRoute where
  authType : Option String
  parseAuth : Option ParseAuthFn
  askLogin : Option AskLoginFn
  verify : Option (Webs → Bool × Webs)

/-! ## Credential verifier (auth.c lines 529-559) -/

/-- Embeds `websVerifyPassword` (auth.c line 529).  Note the order in the
source: the password is MD5-normalised to HA1 form first (lines 535-540),
and only then is the user looked up (line 541). -/
def websVerifyPassword (realm : String) (users : List (String × WebsUser))
    (wp : Webs) : Bool × Webs :=
  let wp :=
    if wp.encoded = false then
      { wp with
        password := some (websMD5
          ((wp.username.getD "") ++ ":" ++ realm ++ ":" ++ (wp.password.getD "")))
        encoded := true }
    else wp
  match wp.user with
  | some u =>
    match wp.digest with
    | some d => (smatch wp.password (some d), wp)
    | none => (smatch wp.password (some u.password), wp)
  | none =>
    match websLookupUser users (wp.username.getD "") with
    | none => (false, wp)
    | some u =>
      let wp := { wp with user := some u }
      match wp.digest with
      | some d => (smatch wp.password (some d), wp)
      | none => (smatch wp.password (some u.password), wp)

/-! ## Digest protocol (auth.c lines 602-871) -/

/-- Result of `parseDigestNonce`'s out-parameters: `secret`, `realm` and
`when` as left behind by the call (auth.c line 804).  They are initialised to
NULL/0 at the call site (line 763) and only overwritten on a successful
base64 decode. -/
structure NonceParts where
  secret : Option String
  realm : Option String
  when : Nat
deriving DecidableEq

/-- Embeds `parseDigestNonce` (auth.c line 804): base64-decode the nonce and
`stok` it on ":" into secret, realm and hex timestamp.  On decode failure the
out-parameters keep their caller-side initial values (NULL/NULL/0). -/
def parseDigestNonce (nonce : String) : NonceParts :=
  match websDecode64 nonce with
  | none => { secret := none, realm := none, when := 0 }
  | some decoded =>
    let toks := stokAll decoded [':']
    { secret := toks[0]?, realm := toks[1]?, when := hextoi toks[2]? }

/-- Embeds `createDigestNonce` (auth.c line 792):
`base64(secret ":" BIT_REALM ":" hex(time) ":" hex(counter++))`; returns the
nonce and the incremented static counter. -/
def createDigestNonce (secret realm : String) (now ctr : Nat) :
    String × Nat :=
  (websEncode64 (secret ++ ":" ++ realm ++ ":" ++ toHex now ++ ":" ++ toHex ctr),
    ctr + 1)

/-- Embeds `calcDigest` (auth.c line 827): HA1 (taken as-is when `username` is
NULL), HA2 = MD5(method ":" uri), and the qop-dependent response digest. -/
def calcDigest (wp : Webs) (username : Option String) (password : String) :
    String :=
  let ha1 :=
    match username with
    | none => password
    | some un => websMD5 (un ++ ":" ++ (wp.realm.getD "") ++ ":" ++ password)
  let ha2 := websMD5 (wp.method ++ ":" ++ (wp.digestUri.getD ""))
  if wp.qop.getD "" = "auth" then
    websMD5 (ha1 ++ ":" ++ (wp.nonce.getD "") ++ ":" ++ (wp.nc.getD "") ++ ":"
      ++ (wp.cnonce.getD "") ++ ":" ++ (wp.qop.getD "") ++ ":" ++ ha2)
  else if wp.qop.getD "" = "auth-int" then
    websMD5 (ha1 ++ ":" ++ (wp.nonce.getD "") ++ ":" ++ (wp.nc.getD "") ++ ":"
      ++ (wp.cnonce.getD "") ++ ":" ++ (wp.qop.getD "") ++ ":" ++ ha2)
  else
    websMD5 (ha1 ++ ":" ++ (wp.nonce.getD "") ++ ":" ++ ha2)

/-- Embeds auth.c lines 757-759: `if (wp->qop == 0) wp->qop = sclone("")` —
an absent qop is replaced by the empty string before the nonce checks and the
digest assembly. -/
def digestQopDefault (wp : Webs) : Webs :=
  if wp.qop = none then { wp with qop := some "" } else wp

/-- Embeds the validation half of `parseDigestDetails` (auth.c lines 751-786),
taking the request context as populated by the preceding key=value header
scan (lines 629-750).  The claims quantify over requests whose Authorization
header parses, i.e. exactly over these populated contexts.

Line 765 is kept as written in the source: the freshly parsed local `secret`
is compared against itself (`smatch(secret, secret)`), because the local
declaration at line 623 shadows the module-level `secret`; the comparison is
a tautology. -/
def parseDigestDetails (cfgSecret cfgRealm : String) (now : Nat)
    (users : List (String × WebsUser)) (routePresent : Bool) (wp : Webs) :
    Bool × Webs :=
  match wp.username, wp.realm, wp.nonce, wp.password with
  | some uname, some _, some nonce, some _ =>
    if routePresent = false then (false, wp)
    else if wp.qop.isSome ∧ (wp.cnonce = none ∨ wp.nc = none) then (false, wp)
    else if smatch (parseDigestNonce nonce).secret
        (parseDigestNonce nonce).secret = false then
      (false, digestQopDefault wp)
    else if smatch (parseDigestNonce nonce).realm (some cfgRealm) = false then
      (false, digestQopDefault wp)
    else if smatch (digestQopDefault wp).qop (some "auth") = false then
      (false, digestQopDefault wp)
    else if (parseDigestNonce nonce).when + 5 * 60 < now then
      (false, digestQopDefault wp)
    else
      match (digestQopDefault wp).user with
      | some u =>
        (true, { digestQopDefault wp with
          digest := some (calcDigest (digestQopDefault wp) none u.password) })
      | none =>
        match websLookupUser users uname with
        | none => (false, digestQopDefault wp)
        | some u =>
          let wpu := { digestQopDefault wp with user := some u }
          (true, { wpu with digest := some (calcDigest wpu none u.password) })
  | _, _, _, _ => (false, wp)

/-! ## Basic protocol (auth.c lines 520-526 and 577-599) -/

/-- Embeds `parseBasicDetails` (auth.c line 577): base64-decode
`authDetails`, split at the first ":" into username and password (either may
be empty) and clear `encoded`; with no ":" both become "".  `none` models the
crash on a NULL decode result (`strchr(NULL, ..)`). -/
def parseBasicDetails (wp : Webs) : Option (Bool × Webs) :=
  match websDecode64 (wp.authDetails.getD "") with
  | none => none
  | some userAuth =>
    let l := userAuth.toList
    let pre := l.takeWhile (fun c => c ≠ ':')
    let post := l.dropWhile (fun c => c ≠ ':')
    match post with
    | [] =>
      some (true, { wp with username := some "", password := some "" })
    | _ :: rest =>
      some (true, { wp with
        username := some (String.mk pre)
        password := some (String.mk rest)
        encoded := false })

/-! ## Route configuration (auth.c lines 977-1002) -/

/-- Embeds `websSetRouteAuth` (auth.c line 977): for "basic"/"digest" install
the matching parse and challenge functions; any other auth string is zeroed
(`auth = 0`) and `route->authType = sclone(auth)` therefore stores the empty
string.  `route->verify` is untouched. -/
def websSetRouteAuth (route : WebsRoute) (auth : String) : WebsRoute :=
  if auth = "basic" then
    { route with
      authType := some (sclone (some auth))
      askLogin := some AskLoginFn.basic
      parseAuth := some ParseAuthFn.basic }
  else if auth = "digest" then
    { route with
      authType := some (sclone (some auth))
      askLogin := some AskLoginFn.digest
      parseAuth := some ParseAuthFn.digest }
  else
    { route with
      authType := some (sclone none)
      askLogin := none
      parseAuth := none }

/-! ## Authorization gate (auth.c lines 77-133) -/

/-- Instrumented outcome of `websAuthenticate`: the boolean return value, any
HTTP status produced (`websError` 400 / `websRedirectByStatus` 401), which of
the route's function pointers were invoked, and the final request context,
session state and Digest nonce counter. -/
structure AuthOutcome where
  allowed : Bool
  status : Option Nat
  parseAuthCalled : Bool
  verifyCalled : Bool
  askLoginCalled : Bool
  wp : Webs
  sess : SessionState
  ctr : Nat
deriving DecidableEq

/-- Runs an optional askLogin function pointer: `basicLogin` (auth.c line 520)
or `digestLogin` (line 603, minting a fresh nonce).  Returns the updated
context, the nonce counter and whether a challenge function ran. -/
def runAskLogin (cfgSecret cfgRealm serverUrl : String) (now ctr : Nat) :
    Option AskLoginFn → Webs → Webs × Nat × Bool
  | none, wp => (wp, ctr, false)
  | some AskLoginFn.basic, wp =>
    ({ wp with authResponse := some ("Basic realm=\"" ++ cfgRealm ++ "\"") },
      ctr, true)
  | some AskLoginFn.digest, wp =>
    let r := createDigestNonce cfgSecret cfgRealm now ctr
    let hdr := "Digest realm=\"" ++ cfgRealm ++ "\", domain=\"" ++ serverUrl ++
      "\", qop=\"auth\", nonce=\"" ++ r.1 ++
      "\", opaque=\"5ccc069c403ebaf9f0171e9517f40e41\", algorithm=\"MD5\", stale=\"FALSE\""
    ({ wp with authResponse := some hdr }, r.2, true)

/-- Runs a parse-auth function pointer; `none` is the crash on the NULL decode
inside `parseBasicDetails`. -/
def runParseAuth (cfgSecret cfgRealm : String) (now : Nat)
    (users : List (String × WebsUser)) :
    ParseAuthFn → Webs → Option (Bool × Webs)
  | ParseAuthFn.basic, wp => parseBasicDetails wp
  | ParseAuthFn.digest, wp =>
    some (parseDigestDetails cfgSecret cfgRealm now users true wp)

/-- Lines 111-131 of `websAuthenticate`: the username / verify / session-write
tail, entered once the protocol check and header parse are done.  `pc` records
whether `parseAuth` was invoked.  A `none` result is the crash on calling a
NULL `route->verify` (line 118 calls it unconditionally). -/
def websAuthVerifyStage (cfgSecret cfgRealm serverUrl : String)
    (now ctr : Nat) (r : WebsRoute) (sess : SessionState) (pc : Bool)
    (wp : Webs) : Option AuthOutcome :=
  if wp.username = none ∨ wp.username = some "" then
    let a := runAskLogin cfgSecret cfgRealm serverUrl now ctr r.askLogin wp
    some { allowed := false, status := some 401, parseAuthCalled := pc
           verifyCalled := false, askLoginCalled := a.2.2, wp := a.1
           sess := sess, ctr := a.2.1 }
  else
    match r.verify with
    | none => none
    | some v =>
      let res := v wp
      if res.1 = false then
        let a := runAskLogin cfgSecret cfgRealm serverUrl now ctr r.askLogin res.2
        some { allowed := false, status := some 401, parseAuthCalled := pc
               verifyCalled := true, askLoginCalled := a.2.2, wp := a.1
               sess := sess, ctr := a.2.1 }
      else
        some { allowed := true, status := none, parseAuthCalled := pc
               verifyCalled := true, askLoginCalled := false, wp := res.2
               sess := { active := true, username := res.2.username }
               ctr := ctr }

/-- Embeds `websAuthenticate` (auth.c line 77).  The process globals
(`secret`, BIT_REALM, the server url, `time(0)`, the nonce counter, the user
table, BIT_AUTO_LOGIN) are explicit parameters; the session store for the
request's cookie is `sess`.  A `none` result is a crash through a NULL
function pointer. -/
def websAuthenticate (cfgSecret cfgRealm serverUrl : String) (now ctr : Nat)
    (users : List (String × WebsUser)) (autoLogin : Bool)
    (route : Option WebsRoute) (sess : SessionState) (wp : Webs) :
    Option AuthOutcome :=
  match route with
  | none =>
    some { allowed := true, status := none, parseAuthCalled := false
           verifyCalled := false, askLoginCalled := false, wp := wp
           sess := sess, ctr := ctr }
  | some r =>
    if r.authType = none ∨ autoLogin = true then
      some { allowed := true, status := none, parseAuthCalled := false
             verifyCalled := false, askLoginCalled := false, wp := wp
             sess := sess, ctr := ctr }
    else
      match (if wp.cookie.isSome ∧ sess.active = true then sess.username
             else none) with
      | some uname =>
        some { allowed := true, status := none, parseAuthCalled := false
               verifyCalled := false, askLoginCalled := false
               wp := { wp with username := some (sclone (some uname)) }
               sess := sess, ctr := ctr }
      | none =>
        if wp.authType.isSome ∧ smatch wp.authType r.authType = false then
          some { allowed := false, status := some 400
                 parseAuthCalled := false, verifyCalled := false
                 askLoginCalled := false, wp := wp, sess := sess, ctr := ctr }
        else
          match wp.authDetails with
          | some _ =>
            match r.parseAuth with
            | none => none
            | some pf =>
              match runParseAuth cfgSecret cfgRealm now users pf wp with
              | none => none
              | some res =>
                if res.1 = false then
                  some { allowed := false, status := none
                         parseAuthCalled := true, verifyCalled := false
                         askLoginCalled := false, wp := res.2, sess := sess
                         ctr := ctr }
                else
                  websAuthVerifyStage cfgSecret cfgRealm serverUrl now ctr r
                    sess true res.2
          | none =>
            websAuthVerifyStage cfgSecret cfgRealm serverUrl now ctr r sess
              false wp

/-! ## Form login (auth.c lines 456-477) -/

/-- Embeds `websLoginUser` (auth.c line 456): install the posted credentials
on the request context, run the route verifier, and only on success write the
username into the session (`websSetSessionVar(wp, WEBS_SESSION_USERNAME, ..)`,
line 475). -/
def websLoginUser (route : Option WebsRoute) (sess : SessionState)
    (wp : Webs) (username password : String) : Bool × Webs × SessionState :=
  match route with
  | none => (false, wp, sess)
  | some r =>
    match r.verify with
    | none => (false, wp, sess)
    | some v =>
      let wp1 := { wp with
        username := some (sclone (some username))
        password := some (sclone (some password)) }
      let res := v wp1
      if res.1 = false then (false, res.2, sess)
      else (true, res.2, { active := true, username := res.2.username })

/-! ## Identity store save (auth.c lines 185-227) -/

/-- The two file-system locations `websWriteAuthFile` touches: the contents at
the target path and at the `tempnam` path (which lives in the system temp
directory, not in the target's directory). -/
structure Fs where
  target : Option String
  temp : Option String
deriving DecidableEq

/-- Instrumented outcome of `websWriteAuthFile`: the return code, the final
file-system state, and whether any fsync was issued (the source never calls
fsync). -/
structure SaveResult where
  code : Int
  fs : Fs
  fsynced : Bool
deriving DecidableEq

/-- Embeds `basename(path)`. -/
def basename (p : String) : String :=
  String.mk ((p.toList.reverse.takeWhile (fun c => c ≠ '/')).reverse)

/-- The exact byte content `websWriteAuthFile` writes: header comment, one
`role` line per role (abilities comma-terminated), a blank line, then one
`user` line per user (auth.c lines 200-219). -/
def serializeAuthFile (path : String) (rolesTab : List (String × WebsRole))
    (usersTab : List (String × WebsUser)) : String :=
  let header := "#\n#   " ++ basename path ++ " - Authorization data\n#\n\n"
  let roleLines := String.join (rolesTab.map (fun p =>
    "role name=" ++ p.1 ++ " abilities=" ++
      String.join (p.2.abilities.map (fun a => a ++ ",")) ++ "\n"))
  let userLines := String.join (usersTab.map (fun p =>
    "user name=" ++ p.2.name ++ " password=" ++ p.2.password ++ " roles=" ++
      p.2.roles ++ "\n"))
  header ++ roleLines ++ "\n" ++ userLines

/-- Embeds `websWriteAuthFile` (auth.c line 185): `tempnam(NULL, "tmp")` names
a file in the system temp directory; `fopen` may fail (return -1, nothing
written); otherwise the store is written to the temp file and closed — with no
fsync — then the target is `unlink`ed and the temp file `rename`d over it;
a failing rename returns -1 after the unlink has already happened. -/
def websWriteAuthFile (rolesTab : List (String × WebsRole))
    (usersTab : List (String × WebsUser)) (path : String)
    (fopenFails renameFails : Bool) (fs : Fs) : SaveResult :=
  if fopenFails = true then { code := -1, fs := fs, fsynced := false }
  else
    let content := serializeAuthFile path rolesTab usersTab
    let fs1 : Fs := { target := fs.target, temp := some content }
    let fs2 : Fs := { target := none, temp := fs1.temp }
    if renameFails = true then { code := -1, fs := fs2, fsynced := false }
    else
      { code := 0, fs := { target := some content, temp := none }
        fsynced := false }

/-! ## Concrete fixtures used by the claim theorems and witnesses -/

/-- Role table with a single role holding 21 terminal abilities (an acyclic
graph of nesting depth 2). -/
def tab21Fx : List (String × WebsRole) :=
  [("r", ⟨["a01", "a02", "a03", "a04", "a05", "a06", "a07", "a08", "a09",
           "a10", "a11", "a12", "a13", "a14", "a15", "a16", "a17", "a18",
           "a19", "a20", "a21"]⟩)]

def u21Fx : WebsUser :=
  { name := "u", password := "", roles := "r", abilities := [] }

/-- Cyclic role graph of spec Scenario F: `a → {b}`, `b → {a, terminal}`. -/
def tabCycFx : List (String × WebsRole) :=
  [("a", ⟨["b"]⟩), ("b", ⟨["a", "terminal"]⟩)]

def uCycFx : WebsUser :=
  { name := "u", password := "", roles := "a", abilities := [] }

def bobFx : WebsUser :=
  { name := "bob", password := "ha1bob", roles := "user", abilities := [] }

/-- Digest request context as left by the header scan: every required field
present, `qop=auth`, and a nonce whose decoded secret is "s2". -/
def wpWrongSecretFx : Webs :=
  { emptyWebs with
    username := some "bob", realm := some "example.com"
    nonce := some (websEncode64 ("s2:example.com:" ++ toHex 1000))
    qop := some "auth", cnonce := some "abc", nc := some "00000001"
    password := some "response-digest", encoded := true
    digestUri := some "/index.html" }

/-- Same request but with the nonce minted under the server's own secret
"s1". -/
def wpRightSecretFx : Webs :=
  { wpWrongSecretFx with
    nonce := some (websEncode64 ("s1:example.com:" ++ toHex 1000)) }

def vAcceptFx : Webs → Bool × Webs := fun w => (true, w)

def vRejectFx : Webs → Bool × Webs := fun w => (false, w)

def baseRouteFx : WebsRoute :=
  { authType := none, parseAuth := none, askLogin := none
    verify := some vAcceptFx }

def digestRouteFx : WebsRoute := websSetRouteAuth baseRouteFx "digest"

def rejectRouteFx : WebsRoute :=
  { digestRouteFx with verify := some vRejectFx }

def sessNoneFx : SessionState := { active := false, username := none }

def sessAliceFx : SessionState := { active := true, username := some "alice" }

/-- Request advertising Basic credentials (a Basic Authorization header). -/
def wpBasicHdrFx : Webs :=
  { emptyWebs with
    authType := some "basic"
    authDetails := some (websEncode64 "alice:secret") }

def wpCookieFx : Webs := { emptyWebs with cookie := some "sid" }

/-- Unknown user with a cleartext (not yet encoded) password. -/
def wpMalloryFx : Webs :=
  { emptyWebs with
    username := some "mallory", password := some "pw", encoded := false }

def fsOrigFx : Fs := { target := some "ORIG", temp := none }

/-! ## Helper lemmas -/

theorem smatch_some_right {a : Option String} {s : String}
    (h : smatch a (some s) = true) : a = some s := by
  cases a with
  | none => simp [smatch] at h
  | some x =>
    simp [smatch] at h
    rw [h]

theorem smatch_some_iff (a : Option String) (s : String) :
    smatch a (some s) = true ↔ a = some s := by
  cases a <;> simp [smatch]

/-- The comparison at auth.c line 765 compares a value with itself; `smatch`
on two equal pointers (NULL included) always succeeds. -/
theorem smatch_self (a : Option String) : smatch a a = true := by
  cases a <;> simp [smatch]

/-- Unfolding lemma: past the depth bound, `computeAbilities` logs the
recursive-definition error and returns the ability set unchanged
(auth.c lines 330-333). -/
theorem computeAbilities_gt (tab : List (String × WebsRole))
    (out : List String) (role : String) (depth : Nat) (h : 20 < depth) :
    computeAbilities tab out role depth =
      (out, ["Recursive ability definition for " ++ role]) := by
  rw [computeAbilities]
  simp [h]

/-- Unfolding lemma: within the depth bound, `computeAbilities` either walks a
defined role's member list or inserts the undefined name as a terminal
ability (auth.c lines 334-343). -/
theorem computeAbilities_le (tab : List (String × WebsRole))
    (out : List String) (role : String) (depth : Nat) (h : depth ≤ 20) :
    computeAbilities tab out role depth =
      (match hashLookup tab role with
       | some rp => computeAbilitiesList tab out rp.abilities depth
       | none => (hashEnter out role, [])) := by
  rw [computeAbilities]
  rw [if_neg (by omega)]
  rcases hl : hashLookup tab role with _ | rp <;> simp [hl]

theorem computeAbilitiesList_nil (tab : List (String × WebsRole))
    (out : List String) (depth : Nat) :
    computeAbilitiesList tab out [] depth = (out, []) := by
  rw [computeAbilitiesList]

/-- Unfolding lemma for the member loop: the head member is expanded at
`depth + 1` and the tail continues from the incremented depth — the `++depth`
of auth.c line 338. -/
theorem computeAbilitiesList_cons (tab : List (String × WebsRole))
    (out : List String) (m : String) (rest : List String) (depth : Nat) :
    computeAbilitiesList tab out (m :: rest) depth =
      ((computeAbilitiesList tab (computeAbilities tab out m (depth + 1)).1
          rest (depth + 1)).1,
        (computeAbilities tab out m (depth + 1)).2 ++
          (computeAbilitiesList tab (computeAbilities tab out m (depth + 1)).1
            rest (depth + 1)).2) := by
  rw [computeAbilitiesList]

/-! ## Claim theorems -/

/-- Claim C1.  The claim states that `parseDigestDetails` rejects every
request whose decoded nonce embeds a secret different from the server's
current nonce-minting secret.  The code does not: line 765 compares the local
`secret` parsed out of the nonce with itself (`smatch(secret, secret)` — the
local declared at line 623 shadows the module-level secret), a tautology.
Failing input: the server's secret is "s1", the presented nonce decodes to
secret "s2" with matching realm and a fresh timestamp, and the request is
accepted (`parseDigestDetails` returns 1 and fills in `wp->digest`). -/
theorem parseDigest_wrong_secret_accepted :
    (parseDigestDetails "s1" "example.com" 1000 [("bob", bobFx)] true
        wpWrongSecretFx).1 = true ∧
    (parseDigestNonce (websEncode64 ("s2:example.com:" ++ toHex 1000))).secret =
      some "s2" ∧
    ("s2" : String) ≠ "s1" := by
  decide

/-- Claim C3, counterexample.  The claim states the save is atomic (temp file
in the target's directory, fsync, rename; target intact on any failure).  The
code `unlink`s the target before `rename`; on a rename failure the original
contents at the target path are gone, the return code is -1, and no fsync was
ever issued. -/
theorem writeAuthFile_rename_failure_destroys_target :
    fsOrigFx.target = some "ORIG" ∧
    (websWriteAuthFile [] [] "/etc/auth.txt" false true fsOrigFx).code = -1 ∧
    (websWriteAuthFile [] [] "/etc/auth.txt" false true fsOrigFx).fs.target ≠
      some "ORIG" ∧
    (websWriteAuthFile [] [] "/etc/auth.txt" false true fsOrigFx).fsynced =
      false := by
  decide

/-- Claim C3, amended.  `websWriteAuthFile` writes the serialized store to a
`tempnam` file (system temp directory, not the target's), never fsyncs,
unlinks the target and then renames: a temp-file creation failure returns -1
with the file system untouched, a rename failure returns -1 with the target
already unlinked (the original is lost, not preserved), and on success the
target holds exactly the serialized store. -/
theorem writeAuthFile_behavior (rolesTab : List (String × WebsRole))
    (usersTab : List (String × WebsUser)) (path : String) (fs : Fs) :
    websWriteAuthFile rolesTab usersTab path true false fs =
      { code := -1, fs := fs, fsynced := false } ∧
    (websWriteAuthFile rolesTab usersTab path false true fs).code = -1 ∧
    (websWriteAuthFile rolesTab usersTab path false true fs).fs.target =
      none ∧
    (websWriteAuthFile rolesTab usersTab path false false fs).fs.target =
      some (serializeAuthFile path rolesTab usersTab) ∧
    (websWriteAuthFile rolesTab usersTab path false false fs).fsynced =
      false := by
  simp [websWriteAuthFile]

/-- Claim C4.  The claim states that for acyclic role graphs of nesting depth
at most 20 every reachable terminal ability lands in `user->abilities`, each
member being expanded at depth exactly one greater than its role's depth.
The code increments `depth` across the member loop (`++depth`, line 338), so
the i-th member of a role is expanded at `depth + i`: on a single role with
21 terminal members (an acyclic graph of nesting depth 2) the 21st member is
expanded at depth 21, hits the depth guard, is dropped from the ability set,
and a bogus "Recursive ability definition" error is logged. -/
theorem computeAbilities_drops_member :
    (hashLookup tab21Fx "r").map (fun rp => rp.abilities.contains "a21") =
      some true ∧
    (computeUserAbilities tab21Fx u21Fx).1.abilities =
      ["a01", "a02", "a03", "a04", "a05", "a06", "a07", "a08", "a09", "a10",
       "a11", "a12", "a13", "a14", "a15", "a16", "a17", "a18", "a19", "a20"] ∧
    (computeUserAbilities tab21Fx u21Fx).2 =
      ["Recursive ability definition for a21"] := by
  refine ⟨by decide, ?_, ?_⟩ <;>
    simp [computeUserAbilities, tab21Fx, u21Fx, stokAll, splitBy,
      computeAbilities_le, computeAbilities_gt, computeAbilitiesList_nil,
      computeAbilitiesList_cons, hashLookup, hashEnter]

/-- Claim C8.  The expansion recursion is depth-bounded: any call past the
bound (depth > 20) logs the recursive-definition error and returns without
touching the ability set built so far (so the partial closure is retained);
`computeUserAbilities` is a total function (its recursion is well-founded for
every role table, cyclic ones included), and on the cyclic graph
`a → {b}, b → {a, terminal}` it terminates with the bounded ability set
`{terminal}` and a non-empty error log, as the spec's Scenario F expects. -/
theorem computeAbilities_bounded (tab : List (String × WebsRole))
    (out : List String) (role : String) (depth : Nat) (h : 20 < depth) :
    computeAbilities tab out role depth =
      (out, ["Recursive ability definition for " ++ role]) ∧
    (computeUserAbilities tabCycFx uCycFx).1.abilities = ["terminal"] ∧
    (computeUserAbilities tabCycFx uCycFx).2 ≠ [] := by
  refine ⟨computeAbilities_gt tab out role depth h, ?_, ?_⟩ <;>
    simp [computeUserAbilities, tabCycFx, uCycFx, stokAll, splitBy,
      computeAbilities_le, computeAbilities_gt, computeAbilitiesList_nil,
      computeAbilitiesList_cons, hashLookup, hashEnter]

/-- Witness for C8 at depth 21 on an empty table. -/
theorem computeAbilities_bounded_witness :
    computeAbilities [] [] "x" 21 =
      ([], ["Recursive ability definition for x"]) ∧
    (computeUserAbilities tabCycFx uCycFx).1.abilities = ["terminal"] ∧
    (computeUserAbilities tabCycFx uCycFx).2 ≠ [] :=
  computeAbilities_bounded [] [] "x" 21 (by decide)

/-- Claim C9, counterexample.  The claim states the user lookup happens before
password normalization, leaving the password untouched when the user is
unknown.  In the code the normalization (lines 535-540) precedes the lookup
(line 541): verifying an unknown user "mallory" with cleartext password "pw"
fails, but the context's password has been overwritten with the MD5 HA1
form. -/
theorem verifyPassword_encodes_despite_unknown_user :
    (websVerifyPassword "example.com" [] wpMalloryFx).1 = false ∧
    (websVerifyPassword "example.com" [] wpMalloryFx).2.password ≠ some "pw" ∧
    (websVerifyPassword "example.com" [] wpMalloryFx).2.password =
      some (websMD5 "mallory:example.com:pw") := by
  decide

/-- Claim C9, amended.  `websVerifyPassword` normalizes the password to HA1
form (when not already encoded) before looking the user up: for a credential
bundle whose username matches no stored user, verification fails, and if the
password was cleartext it has been overwritten with
`MD5(username ":" realm ":" password)`. -/
theorem verifyPassword_unknown_user_fails (realm : String)
    (users : List (String × WebsUser)) (wp : Webs) (uname : String)
    (hu : wp.username = some uname) (hnouser : websLookupUser users uname = none)
    (hfresh : wp.user = none) :
    (websVerifyPassword realm users wp).1 = false ∧
    (wp.encoded = false →
      (websVerifyPassword realm users wp).2.password =
        some (websMD5 (uname ++ ":" ++ realm ++ ":" ++ (wp.password.getD "")))) := by
  rcases hE : wp.encoded with _ | _ <;>
    simp [websVerifyPassword, hE, hu, hfresh, hnouser]

/-- Witness for the amended C9 on the concrete unknown-user bundle. -/
theorem verifyPassword_unknown_user_fails_witness :
    (websVerifyPassword "example.com" [] wpMalloryFx).1 = false ∧
    (wpMalloryFx.encoded = false →
      (websVerifyPassword "example.com" [] wpMalloryFx).2.password =
        some (websMD5 ("mallory" ++ ":" ++ "example.com" ++ ":" ++
          (wpMalloryFx.password.getD "")))) :=
  verifyPassword_unknown_user_fails "example.com" [] wpMalloryFx "mallory"
    (by decide) (by decide) (by decide)

/-- Claim C10.  When the route's verifier rejects the posted credentials,
`websLoginUser` returns false and the session username variable is not
written (the `websSetSessionVar` at line 475 is only reached on success). -/
theorem loginUser_reject_no_session_write (route : Option WebsRoute)
    (r : WebsRoute) (v : Webs → Bool × Webs) (sess : SessionState) (wp : Webs)
    (u p : String) (hr : route = some r) (hv : r.verify = some v)
    (hrej : (v { wp with username := some u, password := some p }).1 = false) :
    websLoginUser route sess wp u p =
      (false, (v { wp with username := some u, password := some p }).2,
        sess) := by
  subst hr
  simp only [websLoginUser, hv, sclone, Option.getD]
  simp [hrej]

/-- Witness for C10 with a rejecting verifier. -/
theorem loginUser_reject_no_session_write_witness :
    websLoginUser (some rejectRouteFx) sessNoneFx emptyWebs "alice" "pw" =
      (false,
        (vRejectFx { emptyWebs with
          username := some "alice", password := some "pw" }).2,
        sessNoneFx) :=
  loginUser_reject_no_session_write (some rejectRouteFx) rejectRouteFx
    vRejectFx sessNoneFx emptyWebs "alice" "pw" rfl rfl (by decide)

/-- Claim C5.  `parseDigestDetails` accepts only if the realm embedded in the
presented nonce equals the configured realm and the embedded timestamp is at
most 300 seconds old; contrapositively, a nonce minted under another realm,
or replayed more than 300 seconds after issuance, is rejected. -/
theorem parseDigest_only_fresh_matching_realm (cfgSecret cfgRealm : String)
    (now : Nat) (users : List (String × WebsUser)) (rp : Bool) (wp : Webs)
    (n : String) (hn : wp.nonce = some n)
    (hacc : (parseDigestDetails cfgSecret cfgRealm now users rp wp).1 = true) :
    (parseDigestNonce n).realm = some cfgRealm ∧
    now ≤ (parseDigestNonce n).when + 300 := by
  unfold parseDigestDetails at hacc
  split at hacc
  case _ uname x nonce y hu hr hnn hp =>
    rw [hn] at hnn
    injection hnn with hnn
    subst hnn
    by_cases h1 : rp = false
    · rw [if_pos h1] at hacc
      simp at hacc
    rw [if_neg h1] at hacc
    by_cases h2 : wp.qop.isSome = true ∧ (wp.cnonce = none ∨ wp.nc = none)
    · rw [if_pos h2] at hacc
      simp at hacc
    rw [if_neg h2] at hacc
    rw [if_neg (by simp [smatch_self])] at hacc
    by_cases h3 : smatch (parseDigestNonce n).realm (some cfgRealm) = false
    · rw [if_pos h3] at hacc
      simp at hacc
    rw [if_neg h3] at hacc
    by_cases h4 : smatch (digestQopDefault wp).qop (some "auth") = false
    · rw [if_pos h4] at hacc
      simp at hacc
    rw [if_neg h4] at hacc
    by_cases h5 : (parseDigestNonce n).when + 5 * 60 < now
    · rw [if_pos h5] at hacc
      simp at hacc
    refine ⟨?_, by omega⟩
    rw [← smatch_some_iff]
    revert h3
    cases smatch (parseDigestNonce n).realm (some cfgRealm) <;> simp
  case _ =>
    simp at hacc

/-- Witness for C5: a concrete accepted request, whose nonce therefore embeds
the configured realm and a timestamp at most 300 seconds old. -/
theorem parseDigest_only_fresh_matching_realm_witness :
    (parseDigestNonce
        (websEncode64 ("s1:example.com:" ++ toHex 1000))).realm =
      some "example.com" ∧
    1000 ≤ (parseDigestNonce
        (websEncode64 ("s1:example.com:" ++ toHex 1000))).when + 300 :=
  parseDigest_only_fresh_matching_realm "s1" "example.com" 1000
    [("bob", bobFx)] true wpRightSecretFx
    (websEncode64 ("s1:example.com:" ++ toHex 1000)) rfl (by decide)

/-- Claim C6.  With no cached session identity, a request whose Authorization
header advertises an auth type different from the route's configured type is
answered 400 (not 401) and refused before any credential parsing or
verification. -/
theorem authenticate_wrong_protocol_400 (cfgS cfgR url : String)
    (now ctr : Nat) (users : List (String × WebsUser)) (r : WebsRoute)
    (sess : SessionState) (wp : Webs) (t ct : String)
    (hrt : r.authType = some t)
    (hnc : (if wp.cookie.isSome ∧ sess.active = true then sess.username
            else none) = none)
    (hwt : wp.authType = some ct) (hne : ct ≠ t) :
    websAuthenticate cfgS cfgR url now ctr users false (some r) sess wp =
      some { allowed := false, status := some 400, parseAuthCalled := false
             verifyCalled := false, askLoginCalled := false, wp := wp
             sess := sess, ctr := ctr } := by
  simp [websAuthenticate, hnc, hrt, hwt, smatch, hne]

/-- Witness for C6: a Basic Authorization header on a Digest route. -/
theorem authenticate_wrong_protocol_400_witness :
    websAuthenticate "s" "example.com" "http://h" 0 0 [] false
        (some digestRouteFx) sessNoneFx wpBasicHdrFx =
      some { allowed := false, status := some 400, parseAuthCalled := false
             verifyCalled := false, askLoginCalled := false
             wp := wpBasicHdrFx, sess := sessNoneFx, ctr := 0 } :=
  authenticate_wrong_protocol_400 "s" "example.com" "http://h" 0 0 []
    digestRouteFx sessNoneFx wpBasicHdrFx "digest" "basic" rfl (by decide)
    rfl (by decide)

/-- Claim C7.  A request whose cookie maps to a session that already stores a
username is admitted on the cached identity: the username is copied into the
request context, the result is true, and neither `parseAuth` nor `verify`
is invoked. -/
theorem authenticate_session_fast_path (cfgS cfgR url : String)
    (now ctr : Nat) (users : List (String × WebsUser)) (r : WebsRoute)
    (sess : SessionState) (wp : Webs) (t u ck : String)
    (hrt : r.authType = some t) (hck : wp.cookie = some ck)
    (hsa : sess.active = true) (hsu : sess.username = some u) :
    websAuthenticate cfgS cfgR url now ctr users false (some r) sess wp =
      some { allowed := true, status := none, parseAuthCalled := false
             verifyCalled := false, askLoginCalled := false
             wp := { wp with username := some u }, sess := sess
             ctr := ctr } := by
  simp [websAuthenticate, hrt, hck, hsa, hsu, sclone]

/-- Witness for C7 on a concrete cached session. -/
theorem authenticate_session_fast_path_witness :
    websAuthenticate "s" "example.com" "http://h" 0 0 [] false
        (some digestRouteFx) sessAliceFx wpCookieFx =
      some { allowed := true, status := none, parseAuthCalled := false
             verifyCalled := false, askLoginCalled := false
             wp := { wpCookieFx with username := some "alice" }
             sess := sessAliceFx, ctr := 0 } :=
  authenticate_session_fast_path "s" "example.com" "http://h" 0 0 []
    digestRouteFx sessAliceFx wpCookieFx "digest" "alice" "sid" rfl rfl rfl
    rfl

/-- Claim C2, counterexample.  The claim states that for auth types other
than "basic"/"digest" (e.g. "form") the stored `authType` is null and
`websAuthenticate` then admits every request with no check.  In the code,
`sclone(0)` yields the empty string, so the stored `authType` is non-null
(empty), and an uncached request on such a route is refused with 401. -/
theorem setRouteAuth_form_counterexample :
    (websSetRouteAuth baseRouteFx "form").authType ≠ none ∧
    (websSetRouteAuth baseRouteFx "form").authType = some "" ∧
    (websSetRouteAuth baseRouteFx "form").parseAuth = none ∧
    (websSetRouteAuth baseRouteFx "form").askLogin = none ∧
    ((websAuthenticate "s" "example.com" "http://h" 0 0 [] false
        (some (websSetRouteAuth baseRouteFx "form")) sessNoneFx
        emptyWebs).map
      (fun o => (o.allowed, o.status, o.parseAuthCalled, o.verifyCalled))) =
      some (false, some 401, false, false) := by
  decide

/-- Claim C2, amended.  For every auth-type string other than "basic" or
"digest" (e.g. "form"), `websSetRouteAuth` stores the empty (non-null)
`authType` and null `parseAuth`/`askLogin`; `websAuthenticate` on such a
route does not admit an uncached request: one with no Authorization header
is refused 401 (with no challenge emitted), and one advertising a non-empty
auth type is refused 400. -/
theorem setRouteAuth_unknown_type_denies (route : WebsRoute) (auth : String)
    (hb : auth ≠ "basic") (hd : auth ≠ "digest") (cfgS cfgR url : String)
    (now ctr : Nat) (users : List (String × WebsUser)) (sess : SessionState)
    (wp : Webs)
    (hnc : (if wp.cookie.isSome ∧ sess.active = true then sess.username
            else none) = none) :
    (websSetRouteAuth route auth).authType = some "" ∧
    (websSetRouteAuth route auth).parseAuth = none ∧
    (websSetRouteAuth route auth).askLogin = none ∧
    (wp.authType = none → wp.authDetails = none → wp.username = none →
      (websAuthenticate cfgS cfgR url now ctr users false
          (some (websSetRouteAuth route auth)) sess wp).map
        (fun o => (o.allowed, o.status, o.parseAuthCalled, o.verifyCalled)) =
        some (false, some 401, false, false)) ∧
    (∀ ct, wp.authType = some ct → ct ≠ "" →
      (websAuthenticate cfgS cfgR url now ctr users false
          (some (websSetRouteAuth route auth)) sess wp).map
        (fun o => (o.allowed, o.status, o.parseAuthCalled, o.verifyCalled)) =
        some (false, some 400, false, false)) := by
  have hra : websSetRouteAuth route auth = { route with authType := some "", askLogin := none, parseAuth := none } := by
    simp [websSetRouteAuth, hb, hd, sclone]
  refine ⟨by simp [hra], by simp [hra], by simp [hra], ?_, ?_⟩
  · intro hat hdet hun
    simp [websAuthenticate, hra, hnc, hat, hdet, hun, websAuthVerifyStage,
      runAskLogin]
  · intro ct hct hcn
    simp [websAuthenticate, hra, hnc, hct, smatch, hcn]

/-- Witness for the amended C2: a route configured with auth "form". -/
theorem setRouteAuth_unknown_type_denies_witness :
    (websSetRouteAuth baseRouteFx "form").parseAuth = none ∧
    (websAuthenticate "s2" "example.com" "http://h" 5 7 [] false
        (some (websSetRouteAuth baseRouteFx "form")) sessNoneFx
        emptyWebs).map
      (fun o => (o.allowed, o.status, o.parseAuthCalled, o.verifyCalled)) =
      some (false, some 401, false, false) :=
  ⟨(setRouteAuth_unknown_type_denies baseRouteFx "form" (by decide)
      (by decide) "s2" "example.com" "http://h" 5 7 [] sessNoneFx emptyWebs
      (by decide)).2.1,
    (setRouteAuth_unknown_type_denies baseRouteFx "form" (by decide)
      (by decide) "s2" "example.com" "http://h" 5 7 [] sessNoneFx emptyWebs
      (by decide)).2.2.2.1 rfl rfl rfl⟩

end GoAheadAuth
